import Mathlib

/-!
# RegistryAccord CLI — verification of the signed-session and content-integrity subsystem

Shallow embedding of the core of the `registryaccord-cli-ts` repository:
the resilient HTTP client (`src/lib/http.ts`), the session commands
(`src/commands/session/nonce.ts`, `issue.ts`), key and session storage
(`src/services/storage.ts`, `src/lib/session.ts`), post creation with media
upload (`src/commands/post/create.ts`), and the signing service
(`src/services/crypto.ts`).

Effectful TypeScript is modelled as pure functions over explicit inputs:
the sequence of network attempt outcomes, the parsed content of local files,
and environment variables are parameters; results carry explicit error
channels (`Except`) and traces of observable effects (attempt counts,
backoff delays, request bodies).
-/

namespace RegistryAccord

/-! ## JavaScript primitives used by the embedded code -/

/-- Whitespace characters skipped by JavaScript `parseInt`. -/
def isJsWhitespace (c : Char) : Bool :=
  c = ' ' ∨ c = '\t' ∨ c = '\n' ∨ c = '\r' ∨ c = '\x0b' ∨ c = '\x0c'

/-- Numeric value of a decimal digit character. -/
def digitVal (c : Char) : Nat := c.toNat - '0'.toNat

/-- Value of a list of decimal digit characters, most significant first. -/
def digitsVal (l : List Char) : Nat := l.foldl (fun acc c => 10 * acc + digitVal c) 0

/-- Model of JavaScript `Number.parseInt(s, 10)`: skip leading whitespace,
optional sign, read a maximal run of decimal digits; `none` models `NaN`
(no digits at all). The exact integer value is returned; rounding of large
values to IEEE doubles is handled separately by `jsIsFinite`. -/
def jsParseInt (s : String) : Option Int :=
  let t := s.data.dropWhile isJsWhitespace
  let signAndRest : Int × List Char :=
    match t with
    | '-' :: r => (-1, r)
    | '+' :: r => (1, r)
    | r => (1, r)
  let digits := signAndRest.2.takeWhile (fun c => c.isDigit)
  if digits.isEmpty then none
  else some (signAndRest.1 * (digitsVal digits : Int))

/-- Smallest magnitude at which an exact integer rounds to IEEE-754 double
infinity (`2^1024 - 2^970`, written out as a literal so that proofs can
evaluate it); `Number.isFinite` is false at or beyond it. -/
def jsMaxFiniteBound : Nat := 179769313486231580793728971405303415079934132710037826936173778980444968292764750946649017977587207096330286416692887910946555547851940402630657488671505820681908902000708383676273854845817711531764475730270069855571366959622842914819860834936475292719074168444365510704342711559699508093042880177904174497792

/-- Model of `Number.isFinite` applied to the result of `parseInt`. -/
def jsIsFinite (v : Int) : Bool := v.natAbs < jsMaxFiniteBound

/-! ## `src/lib/http.ts` — resilient HTTP client -/

/-- Model of `getDefaultTimeoutMs`: `RA_HTTP_TIMEOUT_MS` parsed with
`Number.parseInt(env, 10)` when the variable is set and non-empty
(`env ? parseInt(env, 10) : NaN`), returned when finite and positive,
otherwise 5000. -/
def getDefaultTimeoutMs (env : Option String) : Nat :=
  let parsed : Option Int :=
    match env with
    | some s => if s = "" then none else jsParseInt s
    | none => none
  match parsed with
  | some v => if jsIsFinite v ∧ 0 < v then v.toNat else 5000
  | none => 5000

/-- Model of `opts.timeoutMs || getDefaultTimeoutMs()` (line 79 of
`src/lib/http.ts`): a missing or zero per-call timeout falls back to the
environment-resolved default. -/
def effectiveTimeoutMs (timeoutMs : Option Nat) (env : Option String) : Nat :=
  match timeoutMs with
  | some t => if t = 0 then getDefaultTimeoutMs env else t
  | none => getDefaultTimeoutMs env

/-- Outcome of one underlying `fetch` attempt, as observed by the
`try`/`catch` in `fetchJSON`. -/
inductive AttemptOutcome where
  | success
  | httpStatus (status : Nat)
  | timeout
  | connFailure
  deriving DecidableEq, Repr

/-- Kind of classified error (`AuthError` / `ServerError` / `NetworkError`
from `src/lib/errors.ts`). -/
inductive ErrorKind where
  | auth
  | server
  | network
  deriving DecidableEq, Repr

/-- A classified error as built in `fetchJSON`: its class and its `code`. -/
structure ClassifiedError where
  kind : ErrorKind
  code : String
  deriving DecidableEq, Repr

/-- Status-code classification from `fetchJSON` (lines 107-116):
401/403 → `AuthError`, ≥500 → `ServerError`, ≥400 → `NetworkError` with
`HTTP_CLIENT_ERROR`, anything else non-ok → `NetworkError` with
`HTTP_UNKNOWN_ERROR`. -/
def classifyStatus (s : Nat) : ClassifiedError :=
  if s = 401 ∨ s = 403 then ⟨.auth, "HTTP_AUTH_ERROR"⟩
  else if 500 ≤ s then ⟨.server, "HTTP_SERVER_ERROR"⟩
  else if 400 ≤ s then ⟨.network, "HTTP_CLIENT_ERROR"⟩
  else ⟨.network, "HTTP_UNKNOWN_ERROR"⟩

/-- Terminal result of a `fetchJSON` call. `unreachable` models the
`Unreachable code in fetchJSON` error after the loop (line 204). -/
inductive FetchResult where
  | ok
  | failed (e : ClassifiedError)
  | unreachable
  deriving DecidableEq, Repr

/-- Observable trace of one `fetchJSON` call: terminal result, number of
underlying `fetch` attempts, and the backoff delays slept between attempts. -/
structure FetchTrace where
  result : FetchResult
  attempts : Nat
  delays : List Nat
  deriving DecidableEq, Repr

/-- The retry loop of `fetchJSON` (lines 77-201). `oc n` is the outcome of
the underlying attempt with index `n`. The fuel argument is `retries + 1 -
attempt`; the loop body mirrors the source:

* non-ok status: classify; the `try`-block branch retries 429/503 while
  `attempt < retries`; otherwise the classified error is **thrown inside the
  `try`**, so it lands in the function's own `catch`, which retries every
  `ServerError` or `NetworkError` while `attempt < retries` (line 165) and
  only rethrows `AuthError` immediately;
* `AbortError` (timeout): retried while `attempt < retries`;
* other fetch exceptions: wrapped in `NetworkError`, retried likewise.

Every retry sleeps `backoffMs * 2 ^ attempt` first. -/
def fetchJSONLoop (oc : Nat → AttemptOutcome) (retries backoffMs : Nat) :
    Nat → Nat → FetchTrace
  | _, 0 => ⟨.unreachable, 0, []⟩
  | attempt, fuel + 1 =>
    match oc attempt with
    | .success => ⟨.ok, 1, []⟩
    | .httpStatus s =>
      let e := classifyStatus s
      if (s = 429 ∨ s = 503) ∧ attempt < retries then
        let rest := fetchJSONLoop oc retries backoffMs (attempt + 1) fuel
        ⟨rest.result, rest.attempts + 1, backoffMs * 2 ^ attempt :: rest.delays⟩
      else if attempt < retries ∧ (e.kind = .server ∨ e.kind = .network) then
        let rest := fetchJSONLoop oc retries backoffMs (attempt + 1) fuel
        ⟨rest.result, rest.attempts + 1, backoffMs * 2 ^ attempt :: rest.delays⟩
      else ⟨.failed e, 1, []⟩
    | .timeout =>
      if attempt < retries then
        let rest := fetchJSONLoop oc retries backoffMs (attempt + 1) fuel
        ⟨rest.result, rest.attempts + 1, backoffMs * 2 ^ attempt :: rest.delays⟩
      else ⟨.failed ⟨.network, "HTTP_TIMEOUT"⟩, 1, []⟩
    | .connFailure =>
      if attempt < retries then
        let rest := fetchJSONLoop oc retries backoffMs (attempt + 1) fuel
        ⟨rest.result, rest.attempts + 1, backoffMs * 2 ^ attempt :: rest.delays⟩
      else ⟨.failed ⟨.network, "HTTP_NETWORK_ERROR"⟩, 1, []⟩

/-- Options of `fetchJSON` relevant to retry behaviour; `none` means the
option was not supplied. -/
structure FetchOpts where
  timeoutMs : Option Nat
  retries : Option Nat
  backoffMs : Option Nat
  deriving DecidableEq, Repr

/-- Model of a whole `fetchJSON` call: defaults `retries ?? 3` and
`backoffMs ?? 1000`, then the loop starting at attempt 0 with enough fuel
for `retries + 1` attempts. -/
def fetchJSON (oc : Nat → AttemptOutcome) (opts : FetchOpts) : FetchTrace :=
  let retries := opts.retries.getD 3
  let backoffMs := opts.backoffMs.getD 1000
  fetchJSONLoop oc retries backoffMs 0 (retries + 1)

/-! ## `src/commands/session/issue.ts` — session issuance request -/

/-- The request body built by `SessionIssue.run` (lines 310-314): exactly
`{ did, aud, nonce }`. The source carries a TODO in place of identity
loading and nonce signing; no signature field is ever added. -/
def sessionIssueRequestBody (did aud nonce : String) : List (String × String) :=
  [("did", did), ("aud", aud), ("nonce", nonce)]

/-! ## JSON values and JavaScript member access

`fs.readJson` / `JSON.parse` results are modelled by `JVal`; member access
`v[k]` follows JavaScript semantics: a `TypeError` on `null`, `undefined`
(here `none`) on primitives, index/`length` lookup on arrays and strings. -/

/-- A parsed JSON value. -/
inductive JVal where
  | null
  | bool (b : Bool)
  | num (n : Int)
  | str (s : String)
  | arr (xs : List JVal)
  | obj (fields : List (String × JVal))

/-- Object member lookup; for duplicate keys `JSON.parse` keeps the last
occurrence, so the lookup scans later fields first. -/
def jsLookup : List (String × JVal) → String → Option JVal
  | [], _ => none
  | (k', v) :: rest, k =>
    match jsLookup rest k with
    | some w => some w
    | none => if k' = k then some v else none

/-- Array member access for a string key: `length` or a canonical numeric
index. -/
def jsArrayIndex (xs : List JVal) (k : String) : Option JVal :=
  if k = "length" then some (.num (Int.ofNat xs.length))
  else
    match k.toNat? with
    | some i => if toString i = k then xs.get? i else none
    | none => none

/-- String member access for a string key: `length` or a canonical numeric
index yielding a one-character string. -/
def jsStringIndex (s : String) (k : String) : Option JVal :=
  if k = "length" then some (.num (Int.ofNat s.length))
  else
    match k.toNat? with
    | some i =>
      if toString i = k then (s.data.get? i).map (fun c => JVal.str (String.mk [c]))
      else none
    | none => none

/-- Member access `v[k]` on a non-null value (never throws). -/
def jsGetField (v : JVal) (k : String) : Option JVal :=
  match v with
  | .obj fields => jsLookup fields k
  | .arr xs => jsArrayIndex xs k
  | .str s => jsStringIndex s k
  | _ => none

/-- Member access `v[k]` including the `TypeError` raised on `null`. -/
def jsGetProp (v : JVal) (k : String) : Except Unit (Option JVal) :=
  match v with
  | .null => .error ()
  | _ => .ok (jsGetField v k)

/-- JavaScript truthiness of a JSON value. -/
def jsTruthy : JVal → Bool
  | .null => false
  | .bool b => b
  | .num n => if n = 0 then false else true
  | .str s => if s = "" then false else true
  | .arr _ => true
  | .obj _ => true

/-- Truthiness of a possibly-`undefined` value. -/
def optTruthy (v : Option JVal) : Bool :=
  match v with
  | some w => jsTruthy w
  | none => false

/-! ## `src/lib/session.ts` — session store -/

/-- The `try` block of `getSession` (lines 92-95): parse the file content,
evaluate `sessions[aud] || null`; exceptions propagate. `parsed` is the
outcome of `readFileSync` + `JSON.parse` (`.error` when either throws). -/
def getSessionTry (parsed : Except Unit JVal) (aud : String) :
    Except Unit (Option JVal) :=
  match parsed with
  | .error e => .error e
  | .ok v =>
    match jsGetProp v aud with
    | .error e => .error e
    | .ok pv =>
      .ok (match pv with
           | some w => if jsTruthy w then some w else none
           | none => none)

/-- The `catch` of `getSession` (lines 96-98): any exception becomes the
`null` ("no session") result. -/
def jsCatchToNull (t : Except Unit (Option JVal)) : Except Unit (Option JVal) :=
  match t with
  | .error _ => .ok none
  | .ok r => .ok r

/-- Model of `getSession(aud)` (lines 85-98): absent file → `null`;
otherwise the read-parse-access sequence runs in a `try` whose `catch`
returns `null`. The outer `Except` is the command-visible exception
channel: the `catch` is what keeps it at `.ok`. -/
def getSession (fileExists : Bool) (parsed : Except Unit JVal) (aud : String) :
    Except Unit (Option JVal) :=
  if !fileExists then .ok none
  else jsCatchToNull (getSessionTry parsed aud)

/-! ## `src/services/storage.ts` — key store -/

/-- Materialized identity key record (`StoredKey`). -/
structure StoredKey where
  did : String
  secretKeyBase64 : String
  publicKeyBase64 : String
  deriving DecidableEq, Repr

/-- Check that a possibly-`undefined` member is a JS string
(the typeof-equals-string test). -/
def isStr (v : Option JVal) : Bool :=
  match v with
  | some (.str _) => true
  | _ => false

/-- Check `v && typeof v` being object-like: objects and arrays qualify;
`null` is excluded by truthiness first. -/
def isJsObjectLike : JVal → Bool
  | .obj _ => true
  | .arr _ => true
  | _ => false

/-- The `isStoredKey` runtime shape check of `src/services/storage.ts`. -/
def isStoredKey (v : JVal) : Bool :=
  jsTruthy v && isJsObjectLike v && isStr (jsGetField v "did") &&
    isStr (jsGetField v "publicKeyBase64") && isStr (jsGetField v "secretKeyBase64")

/-- Model of `loadKey` (lines 79-90): absent file → `null`; a raw value with
a truthy `privateKeyBase64` and a non-truthy `secretKeyBase64` is remapped
to the current field name and shape-checked; otherwise the raw value is
shape-checked directly. Failures throw
`'Invalid key file format at ' + KEY_PATH`; `keyPath` stands for the
machine-dependent `KEY_PATH` constant. -/
def loadKey (keyPath : String) (fileExists : Bool) (raw : JVal) :
    Except String (Option StoredKey) :=
  if !fileExists then .ok none
  else
    let invalid : Except String (Option StoredKey) :=
      .error ("Invalid key file format at " ++ keyPath)
    if jsTruthy raw && optTruthy (jsGetField raw "privateKeyBase64") &&
        !optTruthy (jsGetField raw "secretKeyBase64") then
      match jsGetField raw "did", jsGetField raw "privateKeyBase64",
          jsGetField raw "publicKeyBase64" with
      | some (.str d), some (.str sk), some (.str pk) => .ok (some ⟨d, sk, pk⟩)
      | _, _, _ => invalid
    else
      if isStoredKey raw then
        match jsGetField raw "did", jsGetField raw "secretKeyBase64",
            jsGetField raw "publicKeyBase64" with
        | some (.str d), some (.str sk), some (.str pk) => .ok (some ⟨d, sk, pk⟩)
        | _, _, _ => invalid
      else invalid

/-! ## `src/commands/post/create.ts` (remote variant) — media upload and post creation -/

/-- ASCII lower-casing of one character. -/
def asciiLowerChar (c : Char) : Char :=
  if 'A' ≤ c ∧ c ≤ 'Z' then Char.ofNat (c.toNat + 32) else c

/-- ASCII lower-casing of a string; used to state case-insensitive hex
comparison of digests. -/
def asciiLower (s : String) : String := String.mk (s.data.map asciiLowerChar)

/-- Response of `POST /v1/media/uploadInit`. -/
structure UploadInitOut where
  uploadUrl : String
  finalizeUrl : String
  deriving DecidableEq, Repr

/-- Response of the finalize call. -/
structure FinalizeOut where
  cid : String
  mimeType : String
  size : Nat
  deriving DecidableEq, Repr

/-- A media reference embedded into a post record. -/
structure MediaReference where
  cid : String
  mimeType : String
  deriving DecidableEq, Repr

/-- The mismatch error message built at line 326 of the remote
`post/create.ts`. -/
def checksumMismatchMsg (localDigest serverCid : String) : String :=
  "Checksum mismatch: expected " ++ localDigest ++ ", got " ++ serverCid

/-- The wrapping applied by `uploadMedia`'s outer `catch` (line 340). -/
def uploadMediaWrapMsg (mediaPath msg : String) : String :=
  "Failed to upload media " ++ mediaPath ++ ": " ++ msg

/-- Model of `PostCreate.uploadMedia` (lines 246-342) with the network
responses supplied as inputs. `digestHex` stands for the SHA-256 hex digest
(node `crypto`, lowercase hex); the digest of the file bytes is computed
locally, the uploadInit / PUT / finalize round trip yields `finalizeOut`,
and the server `cid` is compared to the local digest with `!==`. A mismatch
throws an error naming both digests; the outer `catch` re-wraps it. -/
def uploadMedia (digestHex : List Nat → String) (mediaPath : String)
    (fileBytes : List Nat) (initOut : UploadInitOut) (finalizeOut : FinalizeOut) :
    Except String MediaReference :=
  let sha256 := digestHex fileBytes
  let _uploadUrl := initOut.uploadUrl
  if finalizeOut.cid ≠ sha256 then
    .error (uploadMediaWrapMsg mediaPath (checksumMismatchMsg sha256 finalizeOut.cid))
  else
    .ok ⟨finalizeOut.cid, finalizeOut.mimeType⟩

/-- Observable trace of one remote `PostCreate.run`: the terminal exit
(`none` on success, otherwise exit code and message), how many times the
media upload sub-flow ran, and how many `POST /v1/repo/record` requests
were issued. -/
structure PostCreateTrace where
  exitError : Option (Nat × String)
  mediaUploadCalls : Nat
  recordRequests : Nat
  deriving DecidableEq, Repr

/-- Model of the remote `PostCreate.run` (lines 61-187): when `--media` is
supplied, `uploadMedia` runs first; an upload failure aborts with
`this.error(..., exit: err.exitCode || 4)` — exit 4, since the thrown value
is a plain `Error` — before the record request is built. Only afterwards is
`POST /v1/repo/record` issued; a failure there exits 5. -/
def postCreateRun (digestHex : List Nat → String)
    (media : Option (String × List Nat)) (initOut : UploadInitOut)
    (finalizeOut : FinalizeOut) (recordOk : Bool) : PostCreateTrace :=
  match media with
  | some (path, bytes) =>
    match uploadMedia digestHex path bytes initOut finalizeOut with
    | .error msg => ⟨some (4, "Media upload failed: " ++ msg), 1, 0⟩
    | .ok _ =>
      if recordOk then ⟨none, 1, 1⟩
      else ⟨some (5, "post create failed"), 1, 1⟩
  | none =>
    if recordOk then ⟨none, 0, 1⟩
    else ⟨some (5, "post create failed"), 0, 1⟩

/-! ## `src/lib/errors.ts` and command exit codes -/

/-- The typed error classes of `src/lib/errors.ts`. -/
inductive RAErrorClass where
  | validation
  | auth
  | network
  | server
  | fileSystem
  | config
  deriving DecidableEq, Repr

/-- The `exitCode` each error class constructor assigns
(`ValidationError` 2, `AuthError` 3, `NetworkError` 4, `ServerError` 5,
`FileSystemError` 2, `ConfigError` 2). -/
def raErrorExitCode : RAErrorClass → Nat
  | .validation => 2
  | .auth => 3
  | .network => 4
  | .server => 5
  | .fileSystem => 2
  | .config => 2

/-- A locally stored signed post (`PostRecord`). -/
structure PostRecord where
  id : String
  createdAt : String
  text : String
  signatureBase64 : String
  publicKeyBase64 : String
  did : String
  deriving DecidableEq, Repr

/-- Model of the local-stub `PostCreate.run`
(`src/commands/post/create.ts` lines 24-44): a missing identity calls
`this.error('No identity found. ...', { exit: 1 })`; otherwise the text is
signed and the record appended to the loaded posts. `sign`, `uuid` and
`now` stand for `signMessage`, `uuidv4()` and `new Date().toISOString()`. -/
def postCreateLocalRun (key : Option StoredKey) (sign : String → String → String)
    (uuid now text : String) (posts : List PostRecord) :
    Except (Nat × String) (List PostRecord) :=
  match key with
  | none => .error (1, "No identity found. Run `ra identity:create` first.")
  | some k =>
    let post : PostRecord :=
      ⟨uuid, now, text, sign text k.secretKeyBase64, k.publicKeyBase64, k.did⟩
    .ok (posts ++ [post])

/-- Exit behaviour of `SessionIssue.run` (lines 320-392): any error from
the HTTP call reaches the outer `catch`, which always uses `exit: 4`
regardless of the error's class. A `storeSession` failure is no different:
the inner catch's `this.error(..., exit: err.exitCode || 2)` *throws* a
CLIError, and that throw happens inside the outer `try` (line 320), so the
outer catch (line 373) re-raises it with `exit: 4` unconditionally — the
requested `err.exitCode || 2` never reaches the process boundary. `none`
means the command succeeds (exit 0). -/
def sessionIssueRunExit (httpResult : Except RAErrorClass Unit)
    (storeResult : Except RAErrorClass Unit) : Option Nat :=
  match httpResult with
  | .error _ => some 4
  | .ok _ =>
    match storeResult with
    | .error _ => some 4
    | .ok _ => none

/-- Exit behaviour of `SessionNonce.run` (lines 90-130): the `catch` always
uses `exit: 4`, whatever the classified error was. -/
def sessionNonceRunExit (httpResult : Except RAErrorClass Unit) : Option Nat :=
  match httpResult with
  | .error _ => some 4
  | .ok _ => none

/-! ## `src/services/crypto.ts` — SigningService

`generateKeypair` / `signMessage` / `verifyMessage` delegate to the
`@noble/ed25519` dependency, whose implementation is not part of this
repository's sources; the definitions below are therefore modelled from the
spec (§4.1, RFC 8032). The curve group — cyclic of prime order
`L = 2^252 + 27742317777372353535851937790883648493` — is represented
through its scalar group `ZMod L` (a point is identified with its discrete
logarithm w.r.t. the base point); the generator is an arbitrary scalar `g`,
the hash `H(R, A, m)` is an arbitrary function into the scalars. -/

/-- The order of the Ed25519 base-point subgroup. -/
def edL : ℕ := 2 ^ 252 + 27742317777372353535851937790883648493

/-- Scalars modulo the group order; doubles as the point representation. -/
abbrev EdScalar := ZMod edL

/-- A generated keypair: secret scalar and public point `sk • G`. -/
structure EdKeypair where
  sk : EdScalar
  pk : EdScalar
  deriving DecidableEq

/-- Modelled from the spec: `generateKeypair` draws a fresh secret scalar
`a` from the entropy source (here a parameter) and derives the public key
as `a • G` (in the scalar representation, `a * g`). -/
def generateKeypair (g a : EdScalar) : EdKeypair := ⟨a, a * g⟩

/-- An Ed25519 signature `(R, S)`. -/
structure EdSig where
  bigR : EdScalar
  s : EdScalar
  deriving DecidableEq

/-- Modelled from the spec: deterministic Ed25519 signing (RFC 8032):
`R = r • G` with `r` the message-derived nonce (here a parameter), and
`S = r + H(R, A, m) * a` with `A = a • G` the public key. -/
def edSign (H : EdScalar → EdScalar → List Nat → EdScalar) (g a r : EdScalar)
    (m : List Nat) : EdSig :=
  let bigR := r * g
  let bigA := a * g
  ⟨bigR, r + H bigR bigA m * a⟩

/-- Modelled from the spec: Ed25519 verification checks the group equation
`S • G = R + H(R, A, m) • A`. -/
def edVerify (H : EdScalar → EdScalar → List Nat → EdScalar) (g bigA : EdScalar)
    (m : List Nat) (sig : EdSig) : Bool :=
  decide (sig.s * g = sig.bigR + H sig.bigR bigA m * bigA)

/-- Little-endian byte-string value (bytes reduced mod 256 as in a
`Uint8Array`). -/
def leBytesVal : List Nat → ℕ
  | [] => 0
  | b :: rest => b % 256 + 256 * leBytesVal rest

/-- Decoding of a 32-byte string as a group element in the scalar
representation: defined when the length is 32 and the value is in range. -/
def decodePoint (bytes : List Nat) : Option EdScalar :=
  if bytes.length = 32 ∧ leBytesVal bytes < edL then
    some ((leBytesVal bytes : ℕ) : EdScalar)
  else none

/-- Decoding of a 64-byte signature into `(R, S)`; `none` models a
malformed signature (wrong length or out-of-range component). -/
def decodeSig (bytes : List Nat) : Option EdSig :=
  if bytes.length = 64 then
    match decodePoint (bytes.take 32), decodePoint ((bytes.drop 32).take 32) with
    | some r, some s => some ⟨r, s⟩
    | _, _ => none
  else none

/-- Modelled from the spec (§4.1): `verify(message, signature, publicKey)`
over raw byte inputs. Malformed key material of the wrong length is a
distinct validation failure surfaced as an error; a malformed signature, or
a right-length key that decodes to no group element, yields `false` and
never an exception. -/
def verifyBytes (H : EdScalar → EdScalar → List Nat → EdScalar) (g : EdScalar)
    (message signature publicKey : List Nat) : Except String Bool :=
  if publicKey.length ≠ 32 then .error "ed25519: invalid public key length"
  else
    match decodePoint publicKey, decodeSig signature with
    | some bigA, some sig => .ok (edVerify H g bigA message sig)
    | some _, none => .ok false
    | none, _ => .ok false

/-! ## Theorems -/

/-- C1: the body `SessionIssue.run` submits to `/v1/session/issue` consists
of exactly the fields `did`, `aud`, `nonce` — it never contains a
`signature` field, contradicting the claim that the nonce is signed with
the local Ed25519 secret key and the signature always submitted (the
source carries an unimplemented TODO in place of identity loading and
signing). -/
theorem c1_session_issue_body_unsigned (did aud nonce : String) :
    (sessionIssueRequestBody did aud nonce).map Prod.fst = ["did", "aud", "nonce"] ∧
      ((sessionIssueRequestBody did aud nonce).map Prod.fst).contains "signature" = false :=
  ⟨rfl, rfl⟩

/-- C2: contrary to the claim that only 429/503/timeout/connection failures
are retried, `fetchJSON` retries every non-2xx status except 401/403,
because the classified error thrown inside the `try` is caught by the
function's own `catch`, which retries `ServerError`/`NetworkError`: with
the default `retries = 3`, a permanent 400 (and a permanent 500) makes 4
underlying attempts instead of 1, while a 401 fails after exactly 1. -/
theorem c2_http_400_retried :
    (fetchJSON (fun _ => .httpStatus 400) ⟨none, none, none⟩).attempts = 4 ∧
      (fetchJSON (fun _ => .httpStatus 400) ⟨none, none, none⟩).result =
        .failed ⟨.network, "HTTP_CLIENT_ERROR"⟩ ∧
      (fetchJSON (fun _ => .httpStatus 500) ⟨none, none, none⟩).attempts = 4 ∧
      (fetchJSON (fun _ => .httpStatus 401) ⟨none, none, none⟩).attempts = 1 := by
  refine ⟨?_, ?_, ?_, ?_⟩ <;> decide

/-- C5: for every message, every nonce and every keypair produced by
`generateKeypair`, verifying the signature produced by `edSign` against the
message and the public key succeeds. -/
theorem c5_sign_verify_roundtrip (H : EdScalar → EdScalar → List Nat → EdScalar)
    (g a r : EdScalar) (m : List Nat) :
    edVerify H g (generateKeypair g a).pk m (edSign H g a r m) = true := by
  simp only [edVerify, edSign, generateKeypair, decide_eq_true_eq]
  ring

/-- Every delay recorded by the retry loop equals
`backoffMs * 2 ^ (attempt at which it was slept)`, counting from the
starting attempt index. -/
theorem fetchJSONLoop_delays_get? (oc : Nat → AttemptOutcome) (retries b : Nat) :
    ∀ (fuel attempt i x : Nat),
      ((fetchJSONLoop oc retries b attempt fuel).delays).get? i = some x →
      x = b * 2 ^ (attempt + i) := by
  intro fuel
  induction fuel with
  | zero =>
    intro attempt i x h
    simp [fetchJSONLoop] at h
  | succ n ih =>
    intro attempt i x h
    have consCase : ∀ rest : List Nat,
        (∀ j y, rest.get? j = some y → y = b * 2 ^ (attempt + 1 + j)) →
        (b * 2 ^ attempt :: rest).get? i = some x → x = b * 2 ^ (attempt + i) := by
      intro rest hrest hc
      match i with
      | 0 =>
        simp only [List.get?] at hc
        simpa using (Option.some.inj hc).symm
      | j + 1 =>
        simp only [List.get?] at hc
        have := hrest j x hc
        rw [this]
        have harith : attempt + 1 + j = attempt + (j + 1) := by omega
        rw [harith]
    cases hoc : oc attempt <;> simp only [fetchJSONLoop, hoc] at h
    case success => simp at h
    case httpStatus s =>
      split at h
      · dsimp only at h
        exact consCase _ (fun j y => ih (attempt + 1) j y) h
      · split at h
        · dsimp only at h
          exact consCase _ (fun j y => ih (attempt + 1) j y) h
        · simp at h
    case timeout =>
      split at h
      · dsimp only at h
        exact consCase _ (fun j y => ih (attempt + 1) j y) h
      · simp at h
    case connFailure =>
      split at h
      · dsimp only at h
        exact consCase _ (fun j y => ih (attempt + 1) j y) h
      · simp at h

/-- C9: in every `fetchJSON` call, the backoff delay slept before retry `n`
(0-indexed) is `backoffMs * 2 ^ n`, with `backoffMs` defaulting to 1000
when the option is not supplied — no jitter, no cap. -/
theorem c9_backoff_delays (oc : Nat → AttemptOutcome) (opts : FetchOpts) (i x : Nat)
    (h : ((fetchJSON oc opts).delays).get? i = some x) :
    x = opts.backoffMs.getD 1000 * 2 ^ i := by
  have := fetchJSONLoop_delays_get? oc (opts.retries.getD 3) (opts.backoffMs.getD 1000)
    ((opts.retries.getD 3) + 1) 0 i x (by simpa [fetchJSON] using h)
  simpa using this

/-- C9 witness: a run of permanent 503s with default options sleeps 1000 ms
before the first retry. -/
theorem c9_backoff_delays_witness :
    ((fetchJSON (fun _ => .httpStatus 503) ⟨none, none, none⟩).delays).get? 0 =
      some 1000 ∧ 1000 = (none : Option Nat).getD 1000 * 2 ^ 0 :=
  ⟨by decide, c9_backoff_delays (fun _ => .httpStatus 503) ⟨none, none, none⟩ 0 1000
    (by decide)⟩

/-- C3: whenever the finalize response's content identifier differs — even
case-insensitively as hex — from the locally computed digest of the
uploaded bytes, the remote post creation aborts with exit 4, the
`POST /v1/repo/record` request is never issued, the upload sub-flow is not
re-run, and the raised error message names both digests. -/
theorem c3_checksum_mismatch_aborts (digestHex : List Nat → String) (path : String)
    (bytes : List Nat) (initOut : UploadInitOut) (finalizeOut : FinalizeOut)
    (recordOk : Bool)
    (hmm : asciiLower finalizeOut.cid ≠ asciiLower (digestHex bytes)) :
    postCreateRun digestHex (some (path, bytes)) initOut finalizeOut recordOk =
      ⟨some (4, "Media upload failed: " ++
          uploadMediaWrapMsg path (checksumMismatchMsg (digestHex bytes) finalizeOut.cid)),
        1, 0⟩ ∧
    (∃ u v, "Media upload failed: " ++
        uploadMediaWrapMsg path (checksumMismatchMsg (digestHex bytes) finalizeOut.cid) =
        u ++ digestHex bytes ++ v) ∧
    (∃ u v, "Media upload failed: " ++
        uploadMediaWrapMsg path (checksumMismatchMsg (digestHex bytes) finalizeOut.cid) =
        u ++ finalizeOut.cid ++ v) := by
  have hne : finalizeOut.cid ≠ digestHex bytes := fun h => hmm (by rw [h])
  have hup : uploadMedia digestHex path bytes initOut finalizeOut =
      .error (uploadMediaWrapMsg path
        (checksumMismatchMsg (digestHex bytes) finalizeOut.cid)) := by
    unfold uploadMedia
    simp [hne]
  refine ⟨?_, ?_, ?_⟩
  · simp [postCreateRun, hup]
  · refine ⟨"Media upload failed: " ++ ("Failed to upload media " ++ path ++ ": ") ++
      "Checksum mismatch: expected ", ", got " ++ finalizeOut.cid, ?_⟩
    simp only [uploadMediaWrapMsg, checksumMismatchMsg, String.append_assoc]
  · refine ⟨"Media upload failed: " ++ ("Failed to upload media " ++ path ++ ": ") ++
      "Checksum mismatch: expected " ++ digestHex bytes ++ ", got ", "", ?_⟩
    simp only [uploadMediaWrapMsg, checksumMismatchMsg, String.append_assoc,
      String.append_empty]

/-- C3 witness: a concrete mismatching digest pair aborts before the record
request. -/
theorem c3_checksum_mismatch_aborts_witness :
    postCreateRun (fun _ => "aa") (some ("f.png", [])) ⟨"u", "fz"⟩ ⟨"bb", "m", 0⟩ true =
      ⟨some (4, "Media upload failed: " ++
          uploadMediaWrapMsg "f.png" (checksumMismatchMsg "aa" "bb")), 1, 0⟩ :=
  (c3_checksum_mismatch_aborts (fun _ => "aa") "f.png" [] ⟨"u", "fz"⟩ ⟨"bb", "m", 0⟩
    true (by decide)).1

/-- C4 counterexample: on the cited sources the claim fails — the local
`post:create` exits 1 (not 3) when no identity is configured, and
`session:issue`'s catch exits 4 even for an authentication-class failure
whose error class carries exit code 3. -/
theorem c4_counterexample_exit_codes :
    postCreateLocalRun none (fun _ _ => "") "u" "t" "x" [] =
      .error (1, "No identity found. Run `ra identity:create` first.") ∧
    sessionIssueRunExit (.error .auth) (.ok ()) = some 4 ∧
    raErrorExitCode .auth = 3 ∧
    decide ((1 : Nat) = 3) = false ∧
    decide ((4 : Nat) = 3) = false :=
  ⟨rfl, rfl, rfl, rfl, rfl⟩

/-- C4 (amended): the typed error classes carry the claimed exit codes
(validation 2, auth 3, network 4, server 5, filesystem 2, config 2), but
the commands hardcode exits at their failure sites: the local `post:create`
exits 1 on a missing identity, and `session:nonce` / `session:issue` exit 4
on every failure inside their `try` — every HTTP failure regardless of its
class, and also a session-store failure, whose inner
`this.error(..., exit: err.exitCode || 2)` throw is re-caught by the outer
catch and re-raised with exit 4. -/
theorem c4_amended_exit_codes :
    (raErrorExitCode .validation = 2 ∧ raErrorExitCode .auth = 3 ∧
      raErrorExitCode .network = 4 ∧ raErrorExitCode .server = 5 ∧
      raErrorExitCode .fileSystem = 2 ∧ raErrorExitCode .config = 2) ∧
    (∀ sign uuid now text posts,
      postCreateLocalRun none sign uuid now text posts =
        .error (1, "No identity found. Run `ra identity:create` first.")) ∧
    (∀ e store, sessionIssueRunExit (.error e) store = some 4) ∧
    (∀ e, sessionNonceRunExit (.error e) = some 4) ∧
    (∀ e, sessionIssueRunExit (.ok ()) (.error e) = some 4) :=
  ⟨⟨rfl, rfl, rfl, rfl, rfl, rfl⟩, fun _ _ _ _ _ => rfl, fun _ _ => rfl,
    fun _ => rfl, fun _ => rfl⟩

/-- C6: verification over raw bytes returns `false` (never an exception)
for a malformed signature, surfaces wrong-length key material as an error
distinct from `false`, and never raises for well-lengthed keys — so
callers can distinguish an invalid signature from malformed input. -/
theorem c6_verify_malformed (H : EdScalar → EdScalar → List Nat → EdScalar)
    (g : EdScalar) (message signature publicKey : List Nat) :
    (publicKey.length = 32 → decodeSig signature = none →
      verifyBytes H g message signature publicKey = .ok false) ∧
    (publicKey.length ≠ 32 →
      verifyBytes H g message signature publicKey =
        .error "ed25519: invalid public key length") ∧
    (publicKey.length = 32 →
      ∃ b, verifyBytes H g message signature publicKey = .ok b) := by
  refine ⟨?_, ?_, ?_⟩
  · intro hlen hsig
    unfold verifyBytes
    rw [if_neg (by simp [hlen])]
    cases hdp : decodePoint publicKey <;> simp [hsig]
  · intro hlen
    unfold verifyBytes
    rw [if_pos hlen]
  · intro hlen
    unfold verifyBytes
    rw [if_neg (by simp [hlen])]
    cases decodePoint publicKey <;> cases decodeSig signature <;> exact ⟨_, rfl⟩

/-- C6 witness: the empty signature is malformed and verifies to `false`
under a 32-byte key, while the empty key is a distinct error. -/
theorem c6_verify_malformed_witness :
    verifyBytes (fun _ _ _ => 0) 1 [] [] (List.replicate 32 0) = .ok false ∧
    verifyBytes (fun _ _ _ => 0) 1 [] [] [] =
      .error "ed25519: invalid public key length" :=
  ⟨(c6_verify_malformed (fun _ _ _ => 0) 1 [] [] (List.replicate 32 0)).1
      (by decide) rfl,
    (c6_verify_malformed (fun _ _ _ => 0) 1 [] [] []).2.1 (by decide)⟩

/-- C7 counterexample: a key file holding only the legacy secret-key field
name (with an empty-string value) and no current-name field does not load —
the legacy branch requires a *truthy* `privateKeyBase64`, so the empty
string falls through to the strict shape check and loading throws. -/
theorem c7_counterexample_legacy_empty_secret :
    loadKey "~/.registryaccord/key.json" true
      (.obj [("did", .str "did:ra:ed25519:abc"), ("publicKeyBase64", .str "pk"),
        ("privateKeyBase64", .str "")]) =
      .error "Invalid key file format at ~/.registryaccord/key.json" := rfl

/-- C7 (amended): a legacy key file whose `privateKeyBase64` is a
*non-empty* string (with string `did` and `publicKeyBase64` and no
`secretKeyBase64` field) loads successfully and yields exactly the identity
a current-format file with the same values yields; and every load failure
is the hard validation error naming the key-file path. -/
theorem c7_amended_legacy_key_load :
    (∀ keyPath d sk pk, sk ≠ "" →
      loadKey keyPath true (.obj [("did", .str d), ("publicKeyBase64", .str pk),
        ("privateKeyBase64", .str sk)]) = .ok (some ⟨d, sk, pk⟩) ∧
      loadKey keyPath true (.obj [("did", .str d), ("publicKeyBase64", .str pk),
        ("secretKeyBase64", .str sk)]) = .ok (some ⟨d, sk, pk⟩)) ∧
    (∀ keyPath fileExists raw e, loadKey keyPath fileExists raw = .error e →
      e = "Invalid key file format at " ++ keyPath) := by
  constructor
  · intro keyPath d sk pk hsk
    constructor
    · simp [loadKey, jsGetField, jsLookup, jsTruthy, optTruthy, isStoredKey,
        isJsObjectLike, isStr, hsk]
    · simp [loadKey, jsGetField, jsLookup, jsTruthy, optTruthy, isStoredKey,
        isJsObjectLike, isStr, hsk]
  · intro keyPath fileExists raw e h
    simp only [loadKey] at h
    split at h
    · simp at h
    · split at h
      · split at h <;> first
          | exact (Except.error.inj h).symm
          | simp at h
      · split at h
        · split at h <;> first
            | exact (Except.error.inj h).symm
            | simp at h
        · exact (Except.error.inj h).symm

/-- C7 witness: a concrete legacy file and the matching current-format file
load to the same identity; a non-object file fails with the path-naming
error. -/
theorem c7_amended_legacy_key_load_witness :
    loadKey "K" true (.obj [("did", .str "d"), ("publicKeyBase64", .str "p"),
      ("privateKeyBase64", .str "s")]) = .ok (some ⟨"d", "s", "p"⟩) ∧
    loadKey "K" true (.obj [("did", .str "d"), ("publicKeyBase64", .str "p"),
      ("secretKeyBase64", .str "s")]) = .ok (some ⟨"d", "s", "p"⟩) ∧
    "Invalid key file format at K" = "Invalid key file format at " ++ "K" :=
  ⟨(c7_amended_legacy_key_load.1 "K" "d" "s" "p" (by decide)).1,
    (c7_amended_legacy_key_load.1 "K" "d" "s" "p" (by decide)).2,
    c7_amended_legacy_key_load.2 "K" true (.num 0) "Invalid key file format at K" rfl⟩

/-- C8 counterexample: a parseable-but-malformed session file whose entry
under the audience is a truthy non-Session value is returned as-is by
`getSession` — not the explicit "no session" result the claim promises for
malformed content. -/
theorem c8_counterexample_malformed_entry_returned :
    getSession true (.ok (.obj [("cdv", .num 42)])) "cdv" = .ok (some (.num 42)) ∧
    ((getSession true (.ok (.obj [("cdv", .num 42)])) "cdv").toOption.getD
        none).isSome = true :=
  ⟨rfl, rfl⟩

/-- C8 (amended): an unparseable session file yields the explicit
"no session" result, and reading a session never raises whatever the file
content — but a parseable object with a truthy entry under the audience is
returned without shape validation. -/
theorem c8_amended_corruption_soft_failure (fileExists : Bool)
    (parsed : Except Unit JVal) (aud : String) :
    (parsed = .error () → getSession fileExists parsed aud = .ok none) ∧
    (∃ r, getSession fileExists parsed aud = .ok r) := by
  constructor
  · intro hp
    subst hp
    cases fileExists <;> rfl
  · unfold getSession
    cases fileExists
    · exact ⟨none, rfl⟩
    · cases htb : getSessionTry parsed aud with
      | error e => exact ⟨none, by simp [jsCatchToNull, htb]⟩
      | ok r => exact ⟨r, by simp [jsCatchToNull, htb]⟩

/-- C8 witness: an unparseable session file gives the "no session" result,
with no exception. -/
theorem c8_amended_corruption_soft_failure_witness :
    getSession true (.error ()) "cdv" = .ok none :=
  (c8_amended_corruption_soft_failure true (.error ()) "cdv").1 rfl

/-- C10: a missing or zero per-call timeout resolves to the
environment-derived default, and `getDefaultTimeoutMs` returns the
`parseInt` value of `RA_HTTP_TIMEOUT_MS` exactly when it is a positive
finite integer, and 5000 in every other case (unset, empty, non-numeric,
zero, negative, or overflowing to infinity). -/
theorem c10_default_timeout_resolution :
    (∀ env, effectiveTimeoutMs none env = getDefaultTimeoutMs env) ∧
    (∀ env, effectiveTimeoutMs (some 0) env = getDefaultTimeoutMs env) ∧
    getDefaultTimeoutMs none = 5000 ∧
    getDefaultTimeoutMs (some "") = 5000 ∧
    (∀ s v, jsParseInt s = some v → jsIsFinite v = true → 0 < v →
      getDefaultTimeoutMs (some s) = v.toNat) ∧
    (∀ s, jsParseInt s = none → getDefaultTimeoutMs (some s) = 5000) ∧
    (∀ s v, jsParseInt s = some v → v ≤ 0 → getDefaultTimeoutMs (some s) = 5000) ∧
    (∀ s v, jsParseInt s = some v → jsIsFinite v = false →
      getDefaultTimeoutMs (some s) = 5000) := by
  have hempty : jsParseInt "" = none := rfl
  refine ⟨fun env => rfl, fun env => rfl, rfl, rfl, ?_, ?_, ?_, ?_⟩
  · intro s v hp hf hpos
    by_cases hs : s = ""
    · rw [hs, hempty] at hp
      exact absurd hp (by simp)
    · simp [getDefaultTimeoutMs, hs, hp, hf, hpos]
  · intro s hp
    by_cases hs : s = ""
    · simp [getDefaultTimeoutMs, hs]
    · simp [getDefaultTimeoutMs, hs, hp]
  · intro s v hp hv
    have hnpos : ¬(0 : Int) < v := by omega
    by_cases hs : s = ""
    · simp [getDefaultTimeoutMs, hs]
    · simp [getDefaultTimeoutMs, hs, hp, hnpos]
  · intro s v hp hf
    by_cases hs : s = ""
    · simp [getDefaultTimeoutMs, hs]
    · simp [getDefaultTimeoutMs, hs, hp, hf]

/-- C10 witness: with `RA_HTTP_TIMEOUT_MS = "1234"`, a missing or zero
per-call timeout resolves to 1234 ms. -/
theorem c10_default_timeout_resolution_witness :
    effectiveTimeoutMs none (some "1234") = getDefaultTimeoutMs (some "1234") ∧
    effectiveTimeoutMs (some 0) (some "1234") = getDefaultTimeoutMs (some "1234") ∧
    getDefaultTimeoutMs (some "1234") = 1234 :=
  ⟨c10_default_timeout_resolution.1 (some "1234"),
    c10_default_timeout_resolution.2.1 (some "1234"),
    by simpa using (c10_default_timeout_resolution.2.2.2.2.1 "1234" 1234
      (by decide) (by decide) (by decide))⟩

end RegistryAccord
